import Mathlib

/-!
Shallow embedding of the agora_at protocol bridge
(agora_at/core/models.py, agora_at/core/bridge.py,
agora_at/adapters/atproto_adapter.py) and proofs about it.

Python dicts are modelled as association lists with in-place update
(insertion order preserved, last write wins), Python exceptions as an
inductive type of the exception classes the source actually raises,
JSON-like payloads as an inductive `Json` type, and network transports
as oracle functions whose invocations are recorded in a trace.
-/

namespace AgoraAT

/-- JSON-like opaque values (Python dict/list/str/int/bool/None payloads).
Numeric payloads are modelled as integers; no claim depends on
fractional numerics. -/
inductive Json where
  | null : Json
  | bool : Bool → Json
  | num : Int → Json
  | str : String → Json
  | arr : List Json → Json
  | obj : List (String × Json) → Json

/-- Python exception classes raised by the source under embedding:
the builtin generic Exception, ValueError, KeyError, TypeError,
AttributeError, and pydantic's ValidationError.  The repository defines
no exception class of its own (in particular no CapabilityDenied class). -/
inductive PyExc where
  | exception : String → PyExc
  | valueError : String → PyExc
  | keyError : String → PyExc
  | typeError : String → PyExc
  | attributeError : String → PyExc
  | validationError : String → PyExc
deriving DecidableEq

/-- Whether an exception is the builtin generic Exception class. -/
def isGenericException : PyExc → Bool
  | .exception _ => true
  | _ => false

/-- str(e) for the modelled exception classes (KeyError displays the
quoted key, as in CPython). -/
def pyMsg : PyExc → String
  | .exception m => m
  | .valueError m => m
  | .keyError k => "\x27" ++ k ++ "\x27"
  | .typeError m => m
  | .attributeError m => m
  | .validationError m => m

/-- Python truthiness of a JSON-like value. -/
def jsonTruthy : Json → Bool
  | .null => false
  | .bool b => b
  | .num n => n != 0
  | .str s => s ≠ ""
  | .arr xs => !xs.isEmpty
  | .obj fs => !fs.isEmpty

/-- Python equality test of an arbitrary value against a string literal
(x == "post"): true exactly when x is that string. -/
def jsonEqStr (j : Json) (s : String) : Bool :=
  match j with
  | .str t => t = s
  | _ => false

/-- Python str() rendering as used in f-string interpolation, for the
value shapes that reach an interpolation site in the source. -/
def jsonPyStr : Json → String
  | .null => "None"
  | .bool b => if b then "True" else "False"
  | .num n => toString n
  | .str s => s
  | .arr _ => "[...]"
  | .obj _ => "\x7b...\x7d"

/-- models.py AgentCapability. -/
inductive AgentCapability where
  | READ_PUBLIC
  | WRITE_POSTS
  | GENERATE_FEEDS
  | MODERATE_CONTENT
  | INTERACT_USERS
deriving DecidableEq

/-- models.py Agent. -/
structure Agent where
  did : String
  handle : Option String := none
  capabilities : List AgentCapability
  endpoint : String
  description : String
  creator : Option String := none

/-- models.py NegotiatedProtocol.  `stats : Optional[Dict[str, float]]`
is modelled with rational values. -/
structure NegotiatedProtocol where
  id : String
  version : String
  description : String
  schema : Json
  stats : Option (List (String × Rat)) := none

/-- models.py BridgeMessage (the record after successful validation). -/
structure BridgeMessage where
  source : String
  target : String
  content : Json
  protocol : Option NegotiatedProtocol := none
  meta : Option (List (String × Json)) := none

/-- The regex constraint on BridgeMessage.source and BridgeMessage.target:
the anchored pattern matching exactly the strings agora and atproto. -/
def sideValid (s : String) : Bool :=
  s = "agora" || s = "atproto"

/-- Pydantic construction of a BridgeMessage: each of source and target is
validated against the anchored side regex; no other validator is declared
on the model, so no cross-field check relates source to target. -/
def mkBridgeMessage (source target : String) (content : Json)
    (protocol : Option NegotiatedProtocol)
    (meta : Option (List (String × Json))) : Except PyExc BridgeMessage :=
  if sideValid source then
    if sideValid target then
      .ok { source := source, target := target, content := content,
            protocol := protocol, meta := meta }
    else
      .error (.validationError ("string does not match regex: " ++ target))
  else
    .error (.validationError ("string does not match regex: " ++ source))

/-- Python dict update d[k] = v on an association list: replaces the value
in place when the key is present (keeping its position), else appends. -/
def dictInsert (k : String) (v : α) : List (String × α) → List (String × α)
  | [] => [(k, v)]
  | (k1, v1) :: rest =>
      if k1 = k then (k, v) :: rest else (k1, v1) :: dictInsert k v rest

/-- Python dict.get(k): total lookup returning None when absent. -/
def dictGet (k : String) (d : List (String × α)) : Option α :=
  List.lookup k d

/-- bridge.py register_protocol restricted to its effect on the
protocol_handlers mapping: plain dict assignment. -/
def registerProtocol (handlers : List (String × NegotiatedProtocol))
    (message_type : String) (protocol : NegotiatedProtocol) :
    List (String × NegotiatedProtocol) :=
  dictInsert message_type protocol handlers

/-- Protocol lookup as performed by the send paths:
self.protocol_handlers.get(message_type). -/
def lookupProtocol (handlers : List (String × NegotiatedProtocol))
    (message_type : String) : Option NegotiatedProtocol :=
  dictGet message_type handlers

/-! ## Protocol persistence (_save_protocols / _load_protocols) -/

/-- The copy of a protocol that survives persistence: _save_protocols writes
only id, version, description and schema, and _load_protocols constructs
NegotiatedProtocol from exactly those four keys, leaving stats at its
default None. -/
def stripStats (p : NegotiatedProtocol) : NegotiatedProtocol :=
  { id := p.id, version := p.version, description := p.description,
    schema := p.schema, stats := none }

/-- The per-protocol record _save_protocols serialises. -/
def protocolToJson (p : NegotiatedProtocol) : Json :=
  .obj [("id", .str p.id), ("version", .str p.version),
        ("description", .str p.description), ("schema", p.schema)]

/-- _save_protocols: the object written to protocols.json, one record per
entry of protocol_handlers, in dict iteration order. -/
def saveProtocols (handlers : List (String × NegotiatedProtocol)) :
    List (String × Json) :=
  handlers.map (fun kp => (kp.1, protocolToJson kp.2))

/-- One record of the _load_protocols loop:
NegotiatedProtocol(id=protocol["id"], version=protocol["version"],
description=protocol["description"], schema=protocol["schema"]).
A missing key raises KeyError, a non-object record raises TypeError on
subscripting, and a non-string id/version/description fails pydantic
validation (pydantic v1's numeric-to-str coercion is not modelled; no
record exercised below has a numeric field). -/
def parseProtocolRecord (j : Json) : Except PyExc NegotiatedProtocol :=
  match j with
  | .obj fields =>
    match List.lookup "id" fields with
    | none => .error (.keyError "id")
    | some idv =>
      match List.lookup "version" fields with
      | none => .error (.keyError "version")
      | some ver =>
        match List.lookup "description" fields with
        | none => .error (.keyError "description")
        | some desc =>
          match List.lookup "schema" fields with
          | none => .error (.keyError "schema")
          | some sch =>
            match idv, ver, desc with
            | .str i, .str v, .str d =>
                .ok { id := i, version := v, description := d,
                      schema := sch, stats := none }
            | _, _, _ => .error (.validationError "str type expected")
  | _ => .error (.typeError "record is not subscriptable")

/-- The record loop of _load_protocols.  The try block wraps the WHOLE
loop, so the first record that raises stops the iteration: records already
assigned stay in protocol_handlers, the remaining records are never
visited, and the caught exception is logged (returned here as the second
component rather than raised). -/
def loadLoop (handlers : List (String × NegotiatedProtocol)) :
    List (String × Json) →
    List (String × NegotiatedProtocol) × Option PyExc
  | [] => (handlers, none)
  | (mt, j) :: rest =>
    match parseProtocolRecord j with
    | .ok p => loadLoop (dictInsert mt p handlers) rest
    | .error e => (handlers, some e)

/-- _load_protocols applied to an already-parsed protocols.json object. -/
def loadProtocols (handlers : List (String × NegotiatedProtocol))
    (data : List (String × Json)) :
    List (String × NegotiatedProtocol) × Option PyExc :=
  loadLoop handlers data

/-- The mapping a fully successful load produces: every entry inserted in
order, stats stripped. -/
def loadedDict (handlers : List (String × NegotiatedProtocol))
    (m : List (String × NegotiatedProtocol)) :
    List (String × NegotiatedProtocol) :=
  m.foldl (fun d kp => dictInsert kp.1 (stripStats kp.2) d) handlers

/-! ## AT Protocol adapter (atproto_adapter.py) -/

/-- One HTTP exchange as issued by the adapter: everything the aiohttp
call would send. -/
structure TransportReq where
  method : String
  url : String
  headers : List (String × String) := []
  body : Json := Json.null
  params : List (String × Json) := []

/-- The remote service's answer: status code, parsed JSON body, and the
raw text used in error messages. -/
structure TransportResp where
  status : Nat
  body : Json
  text : String

/-- The network, as an oracle from requests to responses. -/
def Transport : Type :=
  TransportReq → TransportResp

/-- atproto_adapter.py ATProtoAdapter state relevant to the claims:
the service URL, the agent identity, and the (possibly absent) session
dict loaded from disk. -/
structure ATProtoAdapter where
  service_url : String
  agent : Agent
  session : Option (List (String × Json)) := none

/-- has_capability: capability in self.agent.capabilities. -/
def hasCapability (a : ATProtoAdapter) (c : AgentCapability) : Bool :=
  a.agent.capabilities.contains c

/-- Python `not self.session`: true for a missing session and for an
empty session dict. -/
def sessionFalsy : Option (List (String × Json)) → Bool
  | none => true
  | some s => s.isEmpty

/-- create_post: capability check, then session check, then one
createRecord call; a non-200 status is re-raised as a generic Exception
carrying the remote error text.  `now` stands for _get_iso_timestamp().
The trace lists the transport calls made, in order. -/
def createPost (a : ATProtoAdapter) (tr : Transport) (text : Json)
    (facets : Json) (now : String) :
    List TransportReq × Except PyExc Json :=
  if hasCapability a AgentCapability.WRITE_POSTS = false then
    ([], .error (.exception "Agent does not have WRITE_POSTS capability"))
  else if sessionFalsy a.session then
    ([], .error (.exception "Not authenticated"))
  else
    let sess := a.session.getD []
    let record := Json.obj
      ([("text", text), ("$type", Json.str "app.bsky.feed.post"),
        ("createdAt", Json.str now)] ++
       (if jsonTruthy facets then [("facets", facets)] else []))
    match List.lookup "accessJwt" sess with
    | none => ([], .error (.keyError "accessJwt"))
    | some jwt =>
      match List.lookup "did" sess with
      | none => ([], .error (.keyError "did"))
      | some didv =>
        let req : TransportReq :=
          { method := "POST",
            url := a.service_url ++ "/xrpc/com.atproto.repo.createRecord",
            headers := [("Authorization", "Bearer " ++ jsonPyStr jwt)],
            body := Json.obj
              [("repo", didv),
               ("collection", Json.str "app.bsky.feed.post"),
               ("record", record)] }
        let resp := tr req
        if resp.status ≠ 200 then
          ([req], .error (.exception ("Failed to create post: " ++ resp.text)))
        else
          ([req], .ok resp.body)

/-- result.get(key, default) on a response body: AttributeError when the
body is not a dict. -/
def respGet (j : Json) (k : String) (dflt : Json) : Except PyExc Json :=
  match j with
  | .obj fields => .ok ((List.lookup k fields).getD dflt)
  | _ => .error (.attributeError "object has no attribute get")

/-- get_feed: READ_PUBLIC check, session check, one getTimeline call,
returning the feed field of the response (default empty list). -/
def getFeed (a : ATProtoAdapter) (tr : Transport) (algorithm limit : Json) :
    List TransportReq × Except PyExc Json :=
  if hasCapability a AgentCapability.READ_PUBLIC = false then
    ([], .error (.exception "Agent does not have READ_PUBLIC capability"))
  else if sessionFalsy a.session then
    ([], .error (.exception "Not authenticated"))
  else
    let sess := a.session.getD []
    match List.lookup "accessJwt" sess with
    | none => ([], .error (.keyError "accessJwt"))
    | some jwt =>
      let req : TransportReq :=
        { method := "GET",
          url := a.service_url ++ "/xrpc/app.bsky.feed.getTimeline",
          headers := [("Authorization", "Bearer " ++ jsonPyStr jwt)],
          params := [("algorithm", algorithm), ("limit", limit)] }
      let resp := tr req
      if resp.status ≠ 200 then
        ([req], .error (.exception ("Failed to get feed: " ++ resp.text)))
      else
        match respGet resp.body "feed" (Json.arr []) with
        | .ok feed => ([req], .ok feed)
        | .error e => ([req], .error e)

/-- get_profile: READ_PUBLIC check, session check, one getProfile call,
returning the whole response body. -/
def getProfile (a : ATProtoAdapter) (tr : Transport) (actor : Json) :
    List TransportReq × Except PyExc Json :=
  if hasCapability a AgentCapability.READ_PUBLIC = false then
    ([], .error (.exception "Agent does not have READ_PUBLIC capability"))
  else if sessionFalsy a.session then
    ([], .error (.exception "Not authenticated"))
  else
    let sess := a.session.getD []
    match List.lookup "accessJwt" sess with
    | none => ([], .error (.keyError "accessJwt"))
    | some jwt =>
      let req : TransportReq :=
        { method := "GET",
          url := a.service_url ++ "/xrpc/app.bsky.actor.getProfile",
          headers := [("Authorization", "Bearer " ++ jsonPyStr jwt)],
          params := [("actor", actor)] }
      let resp := tr req
      if resp.status ≠ 200 then
        ([req], .error (.exception ("Failed to get profile: " ++ resp.text)))
      else
        ([req], .ok resp.body)

/-- search_posts: READ_PUBLIC check, session check, one searchPosts call,
returning the posts field of the response (default empty list). -/
def searchPosts (a : ATProtoAdapter) (tr : Transport) (query limit : Json) :
    List TransportReq × Except PyExc Json :=
  if hasCapability a AgentCapability.READ_PUBLIC = false then
    ([], .error (.exception "Agent does not have READ_PUBLIC capability"))
  else if sessionFalsy a.session then
    ([], .error (.exception "Not authenticated"))
  else
    let sess := a.session.getD []
    match List.lookup "accessJwt" sess with
    | none => ([], .error (.keyError "accessJwt"))
    | some jwt =>
      let req : TransportReq :=
        { method := "GET",
          url := a.service_url ++ "/xrpc/app.bsky.feed.searchPosts",
          headers := [("Authorization", "Bearer " ++ jsonPyStr jwt)],
          params := [("q", query), ("limit", limit)] }
      let resp := tr req
      if resp.status ≠ 200 then
        ([req], .error (.exception ("Failed to search posts: " ++ resp.text)))
      else
        match respGet resp.body "posts" (Json.arr []) with
        | .ok posts => ([req], .ok posts)
        | .error e => ([req], .error e)

/-- process_bridge_message of the AT-side adapter: target check, then
dispatch on content.get("type", "") — post, get_feed, get_profile,
search_posts — with every other type (including a missing one, which
defaults to the empty string) rejected with ValueError before any
transport call. -/
def processBridgeMessageAT (a : ATProtoAdapter) (tr : Transport)
    (now : String) (message : BridgeMessage) :
    List TransportReq × Except PyExc Json :=
  if message.target ≠ "atproto" then
    ([], .error (.valueError "Message target must be atproto"))
  else
    match message.content with
    | .obj fields =>
      let t := (List.lookup "type" fields).getD (Json.str "")
      if jsonEqStr t "post" then
        createPost a tr ((List.lookup "text" fields).getD (Json.str ""))
          ((List.lookup "facets" fields).getD Json.null) now
      else if jsonEqStr t "get_feed" then
        getFeed a tr ((List.lookup "algorithm" fields).getD Json.null)
          ((List.lookup "limit" fields).getD (Json.num 50))
      else if jsonEqStr t "get_profile" then
        getProfile a tr ((List.lookup "actor" fields).getD Json.null)
      else if jsonEqStr t "search_posts" then
        searchPosts a tr ((List.lookup "query" fields).getD Json.null)
          ((List.lookup "limit" fields).getD (Json.num 25))
      else
        ([], .error (.valueError ("Unsupported message type: " ++ jsonPyStr t)))
    | _ => ([], .error (.attributeError "object has no attribute get"))

/-! ## Bridge orchestrator (bridge.py ProtocolBridge) -/

/-- A registered event callback, tagged with an identity so that
invocation order and multiplicity are observable in traces. -/
structure Callback where
  id : Nat
  run : List (String × Json) → Except PyExc Unit

/-- ProtocolBridge state relevant to the claims: the protocol_handlers
mapping and the four callback lists of self.callbacks. -/
structure Orchestrator where
  protocol_handlers : List (String × NegotiatedProtocol) := []
  on_message_cbs : List Callback := []
  on_post_cbs : List Callback := []
  on_protocol_negotiated_cbs : List Callback := []
  on_error_cbs : List Callback := []

/-- Observable events of one orchestrator operation, in order: each
callback invocation (with the data it received and the exception it
raised, if any — caught and logged by _trigger_callbacks), and each
dispatch to a side adapter. -/
inductive Ev where
  | cbInvoked (kind : String) (id : Nat) (data : List (String × Json))
      (err : Option PyExc)
  | adapterCall (target : String)

/-- The exception a callback raised, if any. -/
def errOf : Except PyExc Unit → Option PyExc
  | .ok _ => none
  | .error e => some e

/-- _trigger_callbacks: every callback of the list is invoked exactly
once, in list order, each inside its own try/except — a raising callback
is logged and the loop continues; nothing propagates. -/
def triggerCallbacks (kind : String) (cbs : List Callback)
    (data : List (String × Json)) : List Ev :=
  cbs.map (fun cb => Ev.cbInvoked kind cb.id data (errOf (cb.run data)))

/-- on(event_type, callback): appends to the matching callback list;
an unknown event type only logs a warning and changes nothing. -/
def onRegister (o : Orchestrator) (event_type : String) (cb : Callback) :
    Orchestrator :=
  if event_type = "on_message" then
    { o with on_message_cbs := o.on_message_cbs ++ [cb] }
  else if event_type = "on_post" then
    { o with on_post_cbs := o.on_post_cbs ++ [cb] }
  else if event_type = "on_protocol_negotiated" then
    { o with on_protocol_negotiated_cbs := o.on_protocol_negotiated_cbs ++ [cb] }
  else if event_type = "on_error" then
    { o with on_error_cbs := o.on_error_cbs ++ [cb] }
  else o

/-- None for an absent optional string, the string otherwise. -/
def jsonOfOptStr : Option String → Json
  | none => Json.null
  | some s => Json.str s

/-- self.protocol_handlers.get(message_type) if message_type else None:
the empty string is falsy, so it also resolves to None. -/
def resolveProtocol (handlers : List (String × NegotiatedProtocol)) :
    Option String → Option NegotiatedProtocol
  | none => none
  | some t => if t = "" then none else List.lookup t handlers

/-- The event data passed to on_message callbacks of send_to_agora. -/
def msgDataToAgora (message : List (String × Json)) (mt : Option String) :
    List (String × Json) :=
  [("direction", Json.str "to_agora"), ("message", Json.obj message),
   ("message_type", jsonOfOptStr mt)]

/-- The event data passed to on_error callbacks of send_to_agora:
it carries str(e) under the error key. -/
def errDataToAgora (message : List (String × Json)) (e : PyExc) :
    List (String × Json) :=
  [("error", Json.str (pyMsg e)), ("direction", Json.str "to_agora"),
   ("message", Json.obj message)]

/-- The event data passed to on_message callbacks of send_to_atproto. -/
def msgDataToAtproto (message : List (String × Json)) (mt : Option String) :
    List (String × Json) :=
  [("direction", Json.str "to_atproto"), ("message", Json.obj message),
   ("message_type", jsonOfOptStr mt)]

/-- The event data passed to on_error callbacks of send_to_atproto. -/
def errDataToAtproto (message : List (String × Json)) (e : PyExc) :
    List (String × Json) :=
  [("error", Json.str (pyMsg e)), ("direction", Json.str "to_atproto"),
   ("message", Json.obj message)]

/-- The BridgeMessage send_to_agora constructs: fixed (atproto, agora)
source/target pair, registry-resolved protocol, diagnostic meta. -/
def bridgeMessageToAgora (o : Orchestrator)
    (message : List (String × Json)) (mt : Option String) (now : String) :
    BridgeMessage :=
  { source := "atproto", target := "agora", content := Json.obj message,
    protocol := resolveProtocol o.protocol_handlers mt,
    meta := some [("timestamp", Json.str now),
                  ("message_type", jsonOfOptStr mt)] }

/-- The BridgeMessage send_to_atproto constructs. -/
def bridgeMessageToAtproto (o : Orchestrator)
    (message : List (String × Json)) (mt : Option String) (now : String) :
    BridgeMessage :=
  { source := "agora", target := "atproto", content := Json.obj message,
    protocol := resolveProtocol o.protocol_handlers mt,
    meta := some [("timestamp", Json.str now),
                  ("message_type", jsonOfOptStr mt)] }

/-- send_to_agora: builds the validated envelope, triggers on_message,
dispatches once to the Agora-side adapter, and either returns its result
or triggers on_error with str(e) and re-raises the same error. -/
def sendToAgora (o : Orchestrator) (message : List (String × Json))
    (mt : Option String) (adapterFn : BridgeMessage → Except PyExc Json)
    (now : String) : List Ev × Except PyExc Json :=
  match mkBridgeMessage "atproto" "agora" (Json.obj message)
      (resolveProtocol o.protocol_handlers mt)
      (some [("timestamp", Json.str now),
             ("message_type", jsonOfOptStr mt)]) with
  | .error e => ([], .error e)
  | .ok bm =>
    let evs1 := triggerCallbacks "on_message" o.on_message_cbs
      (msgDataToAgora message mt)
    match adapterFn bm with
    | .ok r => (evs1 ++ [Ev.adapterCall "agora"], .ok r)
    | .error e =>
        (evs1 ++ Ev.adapterCall "agora" ::
          triggerCallbacks "on_error" o.on_error_cbs
            (errDataToAgora message e),
         .error e)

/-- message_type == "post" or message.get("type") == "post". -/
def postTriggered (message : List (String × Json)) (mt : Option String) :
    Bool :=
  (mt == some "post") ||
    (match List.lookup "type" message with
     | some v => jsonEqStr v "post"
     | none => false)

/-- The event data passed to on_post callbacks of send_to_atproto. -/
def postData (message : List (String × Json)) (r : Json) :
    List (String × Json) :=
  [("content", (List.lookup "text" message).getD (Json.str "")),
   ("response", r)]

/-- send_to_atproto: like send_to_agora towards the AT side, with the
extra on_post trigger on a successful post. -/
def sendToAtproto (o : Orchestrator) (message : List (String × Json))
    (mt : Option String) (adapterFn : BridgeMessage → Except PyExc Json)
    (now : String) : List Ev × Except PyExc Json :=
  match mkBridgeMessage "agora" "atproto" (Json.obj message)
      (resolveProtocol o.protocol_handlers mt)
      (some [("timestamp", Json.str now),
             ("message_type", jsonOfOptStr mt)]) with
  | .error e => ([], .error e)
  | .ok bm =>
    let evs1 := triggerCallbacks "on_message" o.on_message_cbs
      (msgDataToAtproto message mt)
    match adapterFn bm with
    | .ok r =>
        (evs1 ++ Ev.adapterCall "atproto" ::
          (if postTriggered message mt then
            triggerCallbacks "on_post" o.on_post_cbs (postData message r)
          else []),
         .ok r)
    | .error e =>
        (evs1 ++ Ev.adapterCall "atproto" ::
          triggerCallbacks "on_error" o.on_error_cbs
            (errDataToAtproto message e),
         .error e)

/-- post_to_atproto of the bridge: capability check against the AT-side
adapter BEFORE building the message or calling send_to_atproto; absent
capability raises ValueError with no event and no dispatch. -/
def postToAtproto (o : Orchestrator) (atAdapter : ATProtoAdapter)
    (adapterFn : BridgeMessage → Except PyExc Json) (text : String)
    (facets : Option Json) (now : String) : List Ev × Except PyExc Json :=
  if hasCapability atAdapter AgentCapability.WRITE_POSTS = false then
    ([], .error (.valueError "Agent does not have WRITE_POSTS capability"))
  else
    sendToAtproto o
      ([("type", Json.str "post"), ("text", Json.str text)] ++
        (match facets with
         | some f => if jsonTruthy f then [("facets", f)] else []
         | none => []))
      (some "post") adapterFn now

/-- Number of adapter dispatches in a trace. -/
def countAdapterCalls (evs : List Ev) : Nat :=
  (evs.filter (fun e => match e with
    | Ev.adapterCall _ => true
    | _ => false)).length

/-! ## Concrete fixtures used by witnesses and counterexamples -/

/-- An agent without the WRITE_POSTS capability. -/
def agentNoWrite : Agent :=
  { did := "did:plc:reader", capabilities := [AgentCapability.READ_PUBLIC],
    endpoint := "https://example.test", description := "reader" }

/-- An authenticated AT-side adapter whose agent cannot write posts. -/
def adapterNoWrite : ATProtoAdapter :=
  { service_url := "https://pds.test", agent := agentNoWrite,
    session := some [("did", Json.str "did:plc:reader"),
                     ("accessJwt", Json.str "jwt-a"),
                     ("refreshJwt", Json.str "jwt-r")] }

/-- A stub transport that would answer every request with success and
counts for nothing but being observable in traces. -/
def stubTransport : Transport :=
  fun _ => { status := 200, body := Json.obj [], text := "" }

/-!
## Theorems
-/

theorem beq_false_of_ne {k k1 : String} (h : k ≠ k1) : (k == k1) = false := by
  simp only [beq_eq_false_iff_ne, ne_eq]
  exact h

theorem lookup_dictInsert_self (k : String) (v : α)
    (d : List (String × α)) : List.lookup k (dictInsert k v d) = some v := by
  induction d with
  | nil => simp [dictInsert, List.lookup]
  | cons hd tl ih =>
      obtain ⟨k1, v1⟩ := hd
      by_cases h : k1 = k
      · simp [dictInsert, h, List.lookup]
      · simp [dictInsert, h, List.lookup, ih,
          beq_false_of_ne (fun hh => h hh.symm)]

theorem lookup_dictInsert_ne (k k1 : String) (v : α)
    (d : List (String × α)) (h : k ≠ k1) :
    List.lookup k (dictInsert k1 v d) = List.lookup k d := by
  induction d with
  | nil => simp [dictInsert, List.lookup, beq_false_of_ne h]
  | cons hd tl ih =>
      obtain ⟨k2, v2⟩ := hd
      by_cases h2 : k2 = k1
      · subst h2
        simp [dictInsert, List.lookup, beq_false_of_ne h]
      · by_cases h3 : k = k2
        · subst h3
          simp [dictInsert, h2, List.lookup]
        · simp [dictInsert, h2, List.lookup, beq_false_of_ne h3, ih]

theorem lookup_not_mem (k : String) (d : List (String × α))
    (h : k ∉ d.map Prod.fst) : List.lookup k d = none := by
  induction d with
  | nil => simp [List.lookup]
  | cons hd tl ih =>
      obtain ⟨k1, v1⟩ := hd
      simp only [List.map, List.mem_cons, not_or] at h
      simp [List.lookup, beq_false_of_ne h.1, ih h.2]

/-- C3: register(t, P) followed by lookup(t) returns exactly P; a second
register(t, P') makes lookup(t) return P' and never P (last-write-wins,
silent replacement); lookup of an unregistered message type returns
absent (None) and never raises — dict.get is total. -/
theorem register_lookup_spec (h : List (String × NegotiatedProtocol))
    (t : String) (P Q : NegotiatedProtocol) :
    lookupProtocol (registerProtocol h t P) t = some P ∧
    lookupProtocol (registerProtocol (registerProtocol h t P) t Q) t = some Q ∧
    (P ≠ Q →
      lookupProtocol (registerProtocol (registerProtocol h t P) t Q) t ≠ some P) ∧
    (∀ t1, t1 ∉ h.map Prod.fst → lookupProtocol h t1 = none) := by
  refine ⟨?_, ?_, ?_, ?_⟩
  · exact lookup_dictInsert_self t P h
  · exact lookup_dictInsert_self t Q (registerProtocol h t P)
  · intro hne hcontra
    rw [lookupProtocol, dictGet, registerProtocol,
      lookup_dictInsert_self t Q (registerProtocol h t P)] at hcontra
    exact hne (Option.some.injEq Q P ▸ hcontra).symm
  · intro t1 ht1
    exact lookup_not_mem t1 h ht1

/-- Witness for C3 at concrete inputs. -/
theorem register_lookup_spec_witness :
    lookupProtocol
      (registerProtocol [] "post"
        { id := "p1", version := "1.0", description := "d1", schema := Json.null })
      "post" =
      some { id := "p1", version := "1.0", description := "d1", schema := Json.null } ∧
    lookupProtocol
      (registerProtocol
        (registerProtocol [] "post"
          { id := "p1", version := "1.0", description := "d1", schema := Json.null })
        "post"
        { id := "p2", version := "2.0", description := "d2", schema := Json.null })
      "post" =
      some { id := "p2", version := "2.0", description := "d2", schema := Json.null } ∧
    lookupProtocol
      (registerProtocol
        (registerProtocol [] "post"
          { id := "p1", version := "1.0", description := "d1", schema := Json.null })
        "post"
        { id := "p2", version := "2.0", description := "d2", schema := Json.null })
      "post" ≠
      some { id := "p1", version := "1.0", description := "d1", schema := Json.null } ∧
    lookupProtocol [] "absent_type" = none := by
  have h := register_lookup_spec []
    "post"
    { id := "p1", version := "1.0", description := "d1", schema := Json.null }
    { id := "p2", version := "2.0", description := "d2", schema := Json.null }
  refine ⟨h.1, h.2.1, h.2.2.1 ?_, h.2.2.2 "absent_type" (by simp)⟩
  intro hc
  exact absurd (congrArg NegotiatedProtocol.id hc) (by decide)

/-- C1 counterexample: pydantic accepts a BridgeMessage whose source equals
its target.  The model declares only per-field regex constraints on source
and target; no validator compares the two fields, so construction with
source = target = "agora" succeeds instead of failing with ValidationError,
yielding a BridgeMessage with source = target. -/
theorem bridgeMessage_equal_sides_accepted :
    mkBridgeMessage "agora" "agora" Json.null none none =
      Except.ok { source := "agora", target := "agora", content := Json.null,
                  protocol := none, meta := none } ∧
    (mkBridgeMessage "agora" "agora" Json.null none none).isOk = true := by
  constructor
  · rfl
  · rfl

/-- C1 amended: construction of a BridgeMessage validates only that source
and target each match the anchored regex (each must be the string agora or
atproto); a value outside that set fails with ValidationError, while any
pair drawn from the set — including an equal pair — is accepted.  The
invariant source ≠ target is not enforced at construction. -/
theorem mkBridgeMessage_side_validation (s t : String) (c : Json)
    (p : Option NegotiatedProtocol) (m : Option (List (String × Json))) :
    (sideValid s = true → sideValid t = true →
      mkBridgeMessage s t c p m =
        Except.ok { source := s, target := t, content := c,
                    protocol := p, meta := m }) ∧
    (sideValid s = false ∨ sideValid t = false →
      ∃ msg, mkBridgeMessage s t c p m =
        Except.error (PyExc.validationError msg)) := by
  constructor
  · intro hs ht
    simp [mkBridgeMessage, hs, ht]
  · rintro (hs | ht)
    · exact ⟨"string does not match regex: " ++ s, by simp [mkBridgeMessage, hs]⟩
    · by_cases hs : sideValid s
      · exact ⟨"string does not match regex: " ++ t,
          by simp [mkBridgeMessage, hs, ht]⟩
      · exact ⟨"string does not match regex: " ++ s,
          by simp [mkBridgeMessage, hs]⟩

/-- Witness for the amended C1 at concrete inputs: a valid distinct pair is
accepted, and an out-of-set source is rejected with ValidationError. -/
theorem mkBridgeMessage_side_validation_witness :
    mkBridgeMessage "agora" "atproto" Json.null none none =
      Except.ok { source := "agora", target := "atproto", content := Json.null,
                  protocol := none, meta := none } ∧
    ∃ msg, mkBridgeMessage "zzz" "agora" Json.null none none =
      Except.error (PyExc.validationError msg) :=
  ⟨(mkBridgeMessage_side_validation "agora" "atproto" Json.null none none).1
      (by decide) (by decide),
   (mkBridgeMessage_side_validation "zzz" "agora" Json.null none none).2
      (Or.inl (by decide))⟩

theorem parse_protocolToJson (p : NegotiatedProtocol) :
    parseProtocolRecord (protocolToJson p) = .ok (stripStats p) := rfl

theorem loadLoop_append_save (h mpre : List (String × NegotiatedProtocol))
    (rest : List (String × Json)) :
    loadLoop h (saveProtocols mpre ++ rest) =
      loadLoop (loadedDict h mpre) rest := by
  induction mpre generalizing h with
  | nil => rfl
  | cons kp tl ih =>
      obtain ⟨k, p⟩ := kp
      show loadLoop h ((k, protocolToJson p) :: (saveProtocols tl ++ rest)) = _
      rw [loadLoop, parse_protocolToJson]
      exact ih (dictInsert k (stripStats p) h)

theorem loadLoop_save (h m : List (String × NegotiatedProtocol)) :
    loadLoop h (saveProtocols m) = (loadedDict h m, none) := by
  have := loadLoop_append_save h m []
  simpa [loadLoop] using this

theorem lookup_loadedDict_not_mem (k : String)
    (h m : List (String × NegotiatedProtocol))
    (hk : k ∉ m.map Prod.fst) :
    List.lookup k (loadedDict h m) = List.lookup k h := by
  induction m generalizing h with
  | nil => rfl
  | cons kp tl ih =>
      obtain ⟨k1, p1⟩ := kp
      simp only [List.map, List.mem_cons, not_or] at hk
      show List.lookup k (loadedDict (dictInsert k1 (stripStats p1) h) tl) = _
      rw [ih (dictInsert k1 (stripStats p1) h) hk.2,
        lookup_dictInsert_ne k k1 (stripStats p1) h hk.1]

theorem lookup_loadedDict (k : String) (p : NegotiatedProtocol)
    (h m : List (String × NegotiatedProtocol))
    (hnd : (m.map Prod.fst).Nodup)
    (hm : List.lookup k m = some p) :
    List.lookup k (loadedDict h m) = some (stripStats p) := by
  induction m generalizing h with
  | nil => cases hm
  | cons kp tl ih =>
      obtain ⟨k1, p1⟩ := kp
      rw [List.map, List.nodup_cons] at hnd
      by_cases hk : k = k1
      · subst hk
        have hp : p1 = p := by
          simpa [List.lookup] using hm
        subst hp
        show List.lookup k (loadedDict (dictInsert k (stripStats p1) h) tl) = _
        rw [lookup_loadedDict_not_mem k _ tl hnd.1,
          lookup_dictInsert_self k (stripStats p1) h]
      · have hm1 : List.lookup k tl = some p := by
          simpa [List.lookup, beq_false_of_ne hk] using hm
        exact ih (dictInsert k1 (stripStats p1) h) hnd.2 hm1

/-- C6: persisting the protocol_handlers mapping and reloading it into a
fresh (empty) instance yields, for every entry, a protocol equal in its
id, version, description and schema fields; no record of a save is ever
corrupt, so the load reports no error. -/
theorem save_load_roundtrip (m : List (String × NegotiatedProtocol))
    (hnd : (m.map Prod.fst).Nodup) :
    (loadProtocols [] (saveProtocols m)).2 = none ∧
    ∀ k p, List.lookup k m = some p →
      ∃ q, List.lookup k (loadProtocols [] (saveProtocols m)).1 = some q ∧
        q.id = p.id ∧ q.version = p.version ∧
        q.description = p.description ∧ q.schema = p.schema := by
  rw [loadProtocols, loadLoop_save]
  exact ⟨rfl, fun k p hm =>
    ⟨stripStats p, lookup_loadedDict k p [] m hnd hm, rfl, rfl, rfl, rfl⟩⟩

/-- Witness for C6 at a concrete two-entry mapping. -/
theorem save_load_roundtrip_witness :
    (loadProtocols [] (saveProtocols
      [("post", { id := "p1", version := "1.0", description := "d1",
                  schema := Json.null }),
       ("feed", { id := "p2", version := "2.0", description := "d2",
                  schema := Json.arr [] })])).2 = none ∧
    ∃ q, List.lookup "post" (loadProtocols [] (saveProtocols
      [("post", { id := "p1", version := "1.0", description := "d1",
                  schema := Json.null }),
       ("feed", { id := "p2", version := "2.0", description := "d2",
                  schema := Json.arr [] })])).1 = some q ∧
      q.id = "p1" ∧ q.version = "1.0" ∧
      q.description = "d1" ∧ q.schema = Json.null := by
  have h := save_load_roundtrip
    [("post", { id := "p1", version := "1.0", description := "d1",
                schema := Json.null }),
     ("feed", { id := "p2", version := "2.0", description := "d2",
                schema := Json.arr [] })] (by simp)
  exact ⟨h.1, h.2 "post" _ rfl⟩

/-- C9: a protocol whose stats field is set loses it across a persist/load
cycle — _save_protocols writes only id, version, description and schema,
and _load_protocols constructs the protocol without a stats argument, so
the reloaded protocol has stats = None. -/
theorem stats_dropped_on_roundtrip (m : List (String × NegotiatedProtocol))
    (hnd : (m.map Prod.fst).Nodup) (k : String) (p : NegotiatedProtocol)
    (s : List (String × Rat)) (hm : List.lookup k m = some p)
    (hs : p.stats = some s) :
    ∃ q, List.lookup k (loadProtocols [] (saveProtocols m)).1 = some q ∧
      q.stats = none := by
  rw [loadProtocols, loadLoop_save]
  exact ⟨stripStats p, lookup_loadedDict k p [] m hnd hm, rfl⟩

/-- Witness for C9: a concrete protocol with stats set reloads with stats
absent. -/
theorem stats_dropped_on_roundtrip_witness :
    ∃ q, List.lookup "post" (loadProtocols [] (saveProtocols
      [("post", { id := "p1", version := "1.0", description := "d1",
                  schema := Json.null,
                  stats := some [("cr", (2 : Rat))] })])).1 = some q ∧
      q.stats = none :=
  stats_dropped_on_roundtrip
    [("post", { id := "p1", version := "1.0", description := "d1",
                schema := Json.null, stats := some [("cr", (2 : Rat))] })]
    (by simp) "post" _ [("cr", (2 : Rat))] rfl rfl

/-- C7 counterexample: loading the three-record object
a ↦ good, b ↦ corrupt (missing the id key), c ↦ good does NOT continue
past the corrupt record: only a is loaded, the KeyError for b aborts the
loop, and c — a perfectly valid record — is absent from the result.  The
claim that a bad record is skipped individually while loading continues
for all other records is therefore false. -/
theorem corrupt_record_aborts_rest :
    (loadProtocols []
      [("a", protocolToJson { id := "a1", version := "1",
                              description := "da", schema := Json.null }),
       ("b", Json.obj [("version", Json.str "1")]),
       ("c", protocolToJson { id := "c1", version := "1",
                              description := "dc", schema := Json.null })]).2 =
      some (PyExc.keyError "id") ∧
    List.lookup "a" (loadProtocols []
      [("a", protocolToJson { id := "a1", version := "1",
                              description := "da", schema := Json.null }),
       ("b", Json.obj [("version", Json.str "1")]),
       ("c", protocolToJson { id := "c1", version := "1",
                              description := "dc", schema := Json.null })]).1 =
      some { id := "a1", version := "1", description := "da",
             schema := Json.null } ∧
    List.lookup "c" (loadProtocols []
      [("a", protocolToJson { id := "a1", version := "1",
                              description := "da", schema := Json.null }),
       ("b", Json.obj [("version", Json.str "1")]),
       ("c", protocolToJson { id := "c1", version := "1",
                              description := "dc", schema := Json.null })]).1 =
      none := by
  refine ⟨rfl, rfl, rfl⟩

/-- C7 amended: the first corrupt record aborts the remainder of the load:
every record before it is loaded, the corrupt record and every record
after it are dropped, and the exception is caught by the surrounding
try/except and logged — the load call itself returns instead of raising,
so a bad record is not fatal to the constructor, only to the rest of the
records. -/
theorem corrupt_record_amended (h mpre : List (String × NegotiatedProtocol))
    (mt : String) (j : Json) (post : List (String × Json)) (e : PyExc)
    (hbad : parseProtocolRecord j = .error e) :
    loadProtocols h (saveProtocols mpre ++ (mt, j) :: post) =
      (loadedDict h mpre, some e) := by
  rw [loadProtocols, loadLoop_append_save, loadLoop, hbad]

/-- Witness for the amended C7 at a concrete good/corrupt/good sequence. -/
theorem corrupt_record_amended_witness :
    loadProtocols [] (saveProtocols
      [("a", { id := "a1", version := "1", description := "da",
               schema := Json.null })] ++
      ("b", Json.obj [("version", Json.str "1")]) ::
      [("c", protocolToJson { id := "c1", version := "1",
                              description := "dc", schema := Json.null })]) =
      (loadedDict [] [("a", { id := "a1", version := "1",
                              description := "da", schema := Json.null })],
       some (PyExc.keyError "id")) :=
  corrupt_record_amended []
    [("a", { id := "a1", version := "1", description := "da",
             schema := Json.null })]
    "b" (Json.obj [("version", Json.str "1")])
    [("c", protocolToJson { id := "c1", version := "1",
                            description := "dc", schema := Json.null })]
    (PyExc.keyError "id") rfl

theorem mk_toAgora_eq (o : Orchestrator) (message : List (String × Json))
    (mt : Option String) (now : String) :
    mkBridgeMessage "atproto" "agora" (Json.obj message)
      (resolveProtocol o.protocol_handlers mt)
      (some [("timestamp", Json.str now),
             ("message_type", jsonOfOptStr mt)]) =
      Except.ok (bridgeMessageToAgora o message mt now) := rfl

theorem mk_toAtproto_eq (o : Orchestrator) (message : List (String × Json))
    (mt : Option String) (now : String) :
    mkBridgeMessage "agora" "atproto" (Json.obj message)
      (resolveProtocol o.protocol_handlers mt)
      (some [("timestamp", Json.str now),
             ("message_type", jsonOfOptStr mt)]) =
      Except.ok (bridgeMessageToAtproto o message mt now) := rfl

theorem countAdapterCalls_trigger (k : String) (cbs : List Callback)
    (d : List (String × Json)) :
    countAdapterCalls (triggerCallbacks k cbs d) = 0 := by
  induction cbs with
  | nil => rfl
  | cons cb tl ih =>
      rw [show triggerCallbacks k (cb :: tl) d =
        Ev.cbInvoked k cb.id d (errOf (cb.run d)) ::
          triggerCallbacks k tl d from rfl]
      simpa [countAdapterCalls, List.filter] using ih

theorem countAdapterCalls_append (a b : List Ev) :
    countAdapterCalls (a ++ b) = countAdapterCalls a + countAdapterCalls b := by
  simp [countAdapterCalls, List.filter_append]

theorem countAdapterCalls_cons_call (t : String) (rest : List Ev) :
    countAdapterCalls (Ev.adapterCall t :: rest) =
      countAdapterCalls rest + 1 := by
  simp [countAdapterCalls, List.filter, Nat.add_comm]

/-- C4: whenever the dispatched adapter raises, the orchestrator — in both
directions — triggers the on_error callbacks with data carrying str(e)
and returns the very same error; the full trace equation shows the
adapter was dispatched exactly once (no retry), the error is re-raised
unchanged (never swallowed, never replaced by a default), and the
on_error emission happens between dispatch and re-raise. -/
theorem adapter_error_reraised (o : Orchestrator)
    (message : List (String × Json)) (mt : Option String)
    (adapterFn : BridgeMessage → Except PyExc Json) (now : String)
    (e : PyExc) (h : ∀ bm, adapterFn bm = .error e) :
    sendToAgora o message mt adapterFn now =
      (triggerCallbacks "on_message" o.on_message_cbs
        (msgDataToAgora message mt) ++
        Ev.adapterCall "agora" ::
        triggerCallbacks "on_error" o.on_error_cbs (errDataToAgora message e),
       .error e) ∧
    countAdapterCalls (sendToAgora o message mt adapterFn now).1 = 1 ∧
    sendToAtproto o message mt adapterFn now =
      (triggerCallbacks "on_message" o.on_message_cbs
        (msgDataToAtproto message mt) ++
        Ev.adapterCall "atproto" ::
        triggerCallbacks "on_error" o.on_error_cbs
          (errDataToAtproto message e),
       .error e) ∧
    countAdapterCalls (sendToAtproto o message mt adapterFn now).1 = 1 := by
  have h1 : sendToAgora o message mt adapterFn now =
      (triggerCallbacks "on_message" o.on_message_cbs
        (msgDataToAgora message mt) ++
        Ev.adapterCall "agora" ::
        triggerCallbacks "on_error" o.on_error_cbs (errDataToAgora message e),
       .error e) := by
    simp [sendToAgora, mk_toAgora_eq, h]
  have h2 : sendToAtproto o message mt adapterFn now =
      (triggerCallbacks "on_message" o.on_message_cbs
        (msgDataToAtproto message mt) ++
        Ev.adapterCall "atproto" ::
        triggerCallbacks "on_error" o.on_error_cbs
          (errDataToAtproto message e),
       .error e) := by
    simp [sendToAtproto, mk_toAtproto_eq, h]
  refine ⟨h1, ?_, h2, ?_⟩
  · rw [h1]
    simp [countAdapterCalls_append, countAdapterCalls_cons_call,
      countAdapterCalls_trigger]
  · rw [h2]
    simp [countAdapterCalls_append, countAdapterCalls_cons_call,
      countAdapterCalls_trigger]

/-- Witness for C4 with an always-failing adapter and no registered
callbacks. -/
theorem adapter_error_reraised_witness :
    sendToAgora {} [] none
      (fun _ => Except.error (PyExc.exception "boom")) "t" =
      ([Ev.adapterCall "agora"],
       Except.error (PyExc.exception "boom")) ∧
    countAdapterCalls
      (sendToAgora {} [] none
        (fun _ => Except.error (PyExc.exception "boom")) "t").1 = 1 ∧
    sendToAtproto {} [] none
      (fun _ => Except.error (PyExc.exception "boom")) "t" =
      ([Ev.adapterCall "atproto"],
       Except.error (PyExc.exception "boom")) ∧
    countAdapterCalls
      (sendToAtproto {} [] none
        (fun _ => Except.error (PyExc.exception "boom")) "t").1 = 1 := by
  have h := adapter_error_reraised {} [] none
    (fun _ => Except.error (PyExc.exception "boom")) "t"
    (PyExc.exception "boom") (fun _ => rfl)
  exact h

theorem onRegister_on_message (o : Orchestrator) (cb : Callback) :
    onRegister o "on_message" cb =
      { o with on_message_cbs := o.on_message_cbs ++ [cb] } := rfl

/-- C5: with callbacks [A, B] registered for on_message (in that order),
one send invokes A then B, each exactly once and each with the event
data, regardless of whether A raises: the trace lists A's invocation
(with its caught exception, if any) then B's, and the caller of send
still receives the adapter's result — no callback exception propagates. -/
theorem callback_pair_order_isolation (o0 : Orchestrator)
    (h0 : o0.on_message_cbs = []) (A B : Callback)
    (message : List (String × Json)) (mt : Option String)
    (adapterFn : BridgeMessage → Except PyExc Json) (now : String)
    (r : Json) (hok : ∀ bm, adapterFn bm = .ok r) :
    sendToAgora (onRegister (onRegister o0 "on_message" A) "on_message" B)
      message mt adapterFn now =
      ([Ev.cbInvoked "on_message" A.id (msgDataToAgora message mt)
          (errOf (A.run (msgDataToAgora message mt))),
        Ev.cbInvoked "on_message" B.id (msgDataToAgora message mt)
          (errOf (B.run (msgDataToAgora message mt))),
        Ev.adapterCall "agora"], .ok r) := by
  simp [sendToAgora, mk_toAgora_eq, hok, onRegister_on_message, h0,
    triggerCallbacks]

/-- Witness for C5: a raising callback A followed by a normal callback B;
both are invoked in order and send still returns the adapter's result. -/
theorem callback_pair_order_isolation_witness :
    sendToAgora
      (onRegister
        (onRegister {} "on_message"
          { id := 1, run := fun _ => Except.error (PyExc.exception "boom") })
        "on_message" { id := 2, run := fun _ => Except.ok () })
      [] none (fun _ => Except.ok (Json.str "resp")) "t" =
      ([Ev.cbInvoked "on_message" 1 (msgDataToAgora [] none)
          (some (PyExc.exception "boom")),
        Ev.cbInvoked "on_message" 2 (msgDataToAgora [] none) none,
        Ev.adapterCall "agora"], Except.ok (Json.str "resp")) := by
  have h := callback_pair_order_isolation {} rfl
    { id := 1, run := fun _ => Except.error (PyExc.exception "boom") }
    { id := 2, run := fun _ => Except.ok () }
    [] none (fun _ => Except.ok (Json.str "resp")) "t"
    (Json.str "resp") (fun _ => rfl)
  simpa [errOf] using h

/-- C8: in both directions, the full on_message emission comes first in
the trace and the (single) adapter dispatch strictly after it — the
adapter is never invoked without the preceding on_message emission of
that send — and when the adapter succeeds, send returns the adapter's
result. -/
theorem on_message_precedes_dispatch (o : Orchestrator)
    (message : List (String × Json)) (mt : Option String)
    (adapterFn : BridgeMessage → Except PyExc Json) (now : String) :
    (∃ rest, (sendToAgora o message mt adapterFn now).1 =
      triggerCallbacks "on_message" o.on_message_cbs
        (msgDataToAgora message mt) ++ Ev.adapterCall "agora" :: rest) ∧
    (∀ r, adapterFn (bridgeMessageToAgora o message mt now) = .ok r →
      sendToAgora o message mt adapterFn now =
        (triggerCallbacks "on_message" o.on_message_cbs
          (msgDataToAgora message mt) ++ [Ev.adapterCall "agora"],
         .ok r)) ∧
    (∃ rest, (sendToAtproto o message mt adapterFn now).1 =
      triggerCallbacks "on_message" o.on_message_cbs
        (msgDataToAtproto message mt) ++ Ev.adapterCall "atproto" :: rest) ∧
    (∀ r, adapterFn (bridgeMessageToAtproto o message mt now) = .ok r →
      sendToAtproto o message mt adapterFn now =
        (triggerCallbacks "on_message" o.on_message_cbs
          (msgDataToAtproto message mt) ++
          Ev.adapterCall "atproto" ::
          (if postTriggered message mt then
            triggerCallbacks "on_post" o.on_post_cbs (postData message r)
          else []),
         .ok r)) := by
  refine ⟨?_, ?_, ?_, ?_⟩
  · cases hcase : adapterFn (bridgeMessageToAgora o message mt now) with
    | ok r =>
        exact ⟨[], by simp [sendToAgora, mk_toAgora_eq, hcase]⟩
    | error e =>
        exact ⟨triggerCallbacks "on_error" o.on_error_cbs
          (errDataToAgora message e),
          by simp [sendToAgora, mk_toAgora_eq, hcase]⟩
  · intro r hr
    simp [sendToAgora, mk_toAgora_eq, hr]
  · cases hcase : adapterFn (bridgeMessageToAtproto o message mt now) with
    | ok r =>
        refine ⟨if postTriggered message mt then
          triggerCallbacks "on_post" o.on_post_cbs (postData message r)
        else [], ?_⟩
        simp [sendToAtproto, mk_toAtproto_eq, hcase]
    | error e =>
        exact ⟨triggerCallbacks "on_error" o.on_error_cbs
          (errDataToAtproto message e),
          by simp [sendToAtproto, mk_toAtproto_eq, hcase]⟩
  · intro r hr
    simp [sendToAtproto, mk_toAtproto_eq, hr]

/-- Witness for C8 with an always-succeeding adapter. -/
theorem on_message_precedes_dispatch_witness :
    (∃ rest, (sendToAgora {} [] none
        (fun _ => Except.ok Json.null) "t").1 =
      triggerCallbacks "on_message" (Orchestrator.on_message_cbs {})
        (msgDataToAgora [] none) ++ Ev.adapterCall "agora" :: rest) ∧
    sendToAgora {} [] none (fun _ => Except.ok Json.null) "t" =
      (triggerCallbacks "on_message" (Orchestrator.on_message_cbs {})
        (msgDataToAgora [] none) ++ [Ev.adapterCall "agora"],
       Except.ok Json.null) := by
  have h := on_message_precedes_dispatch {} [] none
    (fun _ => Except.ok Json.null) "t"
  exact ⟨h.1, h.2.1 Json.null rfl⟩

/-- C2 counterexample: invoking create_post on an agent without
WRITE_POSTS does fail before any transport call (empty request trace),
but the error raised is the BUILTIN GENERIC Exception class, not a
dedicated CapabilityDenied error — the repository defines no such class.
The claim's requirement that the failure be a CapabilityDenied error and
"not a generic exception" is therefore false at this input. -/
theorem capability_error_is_generic :
    createPost adapterNoWrite stubTransport (Json.str "hello") Json.null
        "2025-01-01T00:00:00Z" =
      ([], Except.error
        (PyExc.exception "Agent does not have WRITE_POSTS capability")) ∧
    isGenericException
      (PyExc.exception "Agent does not have WRITE_POSTS capability") = true := by
  constructor
  · rfl
  · rfl

/-- C2 amended: a capability-gated operation invoked on an agent lacking
the capability fails before any network call — the transport trace is
empty and no event or dispatch occurs — but with a builtin error, not a
dedicated CapabilityDenied type: the generic Exception in
ATProtoAdapter.create_post and ValueError in ProtocolBridge.post_to_atproto. -/
theorem capability_gate_before_network (a : ATProtoAdapter) (tr : Transport)
    (text facets : Json) (now : String) (o : Orchestrator)
    (adapterFn : BridgeMessage → Except PyExc Json) (ptext : String)
    (pfacets : Option Json)
    (h : hasCapability a AgentCapability.WRITE_POSTS = false) :
    createPost a tr text facets now =
      ([], Except.error
        (PyExc.exception "Agent does not have WRITE_POSTS capability")) ∧
    postToAtproto o a adapterFn ptext pfacets now =
      ([], Except.error
        (PyExc.valueError "Agent does not have WRITE_POSTS capability")) := by
  constructor
  · simp [createPost, h]
  · simp [postToAtproto, h]

/-- Witness for the amended C2 at the concrete capability-less adapter. -/
theorem capability_gate_before_network_witness :
    createPost adapterNoWrite stubTransport (Json.str "hi") Json.null "t" =
      ([], Except.error
        (PyExc.exception "Agent does not have WRITE_POSTS capability")) ∧
    postToAtproto {} adapterNoWrite (fun _ => Except.ok Json.null) "hi"
        none "t" =
      ([], Except.error
        (PyExc.valueError "Agent does not have WRITE_POSTS capability")) :=
  capability_gate_before_network adapterNoWrite stubTransport
    (Json.str "hi") Json.null "t" {} (fun _ => Except.ok Json.null) "hi"
    none rfl

theorem jsonEqStr_true_iff (t : Json) (s : String) :
    jsonEqStr t s = true ↔ t = .str s := by
  cases t <;> simp [jsonEqStr]

/-- C10: for a BridgeMessage targeting the AT side whose content is a
dict, process_bridge_message selects the operation by the content's type
field — post, get_feed, get_profile, search_posts, tried in that order —
and any other type value, including the empty-string default taken when
the key is missing, is rejected with ValueError and an empty transport
trace: no network call is made. -/
theorem dispatch_on_content_type (a : ATProtoAdapter) (tr : Transport)
    (now : String) (src : String) (proto : Option NegotiatedProtocol)
    (meta : Option (List (String × Json)))
    (fields : List (String × Json)) (t : Json)
    (hT : (List.lookup "type" fields).getD (Json.str "") = t) :
    (jsonEqStr t "post" = true →
      processBridgeMessageAT a tr now
        { source := src, target := "atproto", content := Json.obj fields,
          protocol := proto, meta := meta } =
        createPost a tr ((List.lookup "text" fields).getD (Json.str ""))
          ((List.lookup "facets" fields).getD Json.null) now) ∧
    (jsonEqStr t "get_feed" = true →
      processBridgeMessageAT a tr now
        { source := src, target := "atproto", content := Json.obj fields,
          protocol := proto, meta := meta } =
        getFeed a tr ((List.lookup "algorithm" fields).getD Json.null)
          ((List.lookup "limit" fields).getD (Json.num 50))) ∧
    (jsonEqStr t "get_profile" = true →
      processBridgeMessageAT a tr now
        { source := src, target := "atproto", content := Json.obj fields,
          protocol := proto, meta := meta } =
        getProfile a tr ((List.lookup "actor" fields).getD Json.null)) ∧
    (jsonEqStr t "search_posts" = true →
      processBridgeMessageAT a tr now
        { source := src, target := "atproto", content := Json.obj fields,
          protocol := proto, meta := meta } =
        searchPosts a tr ((List.lookup "query" fields).getD Json.null)
          ((List.lookup "limit" fields).getD (Json.num 25))) ∧
    (jsonEqStr t "post" = false → jsonEqStr t "get_feed" = false →
     jsonEqStr t "get_profile" = false → jsonEqStr t "search_posts" = false →
      processBridgeMessageAT a tr now
        { source := src, target := "atproto", content := Json.obj fields,
          protocol := proto, meta := meta } =
        ([], Except.error (PyExc.valueError
          ("Unsupported message type: " ++ jsonPyStr t)))) := by
  refine ⟨?_, ?_, ?_, ?_, ?_⟩
  · intro h1
    obtain rfl := (jsonEqStr_true_iff t "post").mp h1
    simp [processBridgeMessageAT, hT, jsonEqStr]
  · intro h1
    obtain rfl := (jsonEqStr_true_iff t "get_feed").mp h1
    simp [processBridgeMessageAT, hT, jsonEqStr]
  · intro h1
    obtain rfl := (jsonEqStr_true_iff t "get_profile").mp h1
    simp [processBridgeMessageAT, hT, jsonEqStr]
  · intro h1
    obtain rfl := (jsonEqStr_true_iff t "search_posts").mp h1
    simp [processBridgeMessageAT, hT, jsonEqStr]
  · intro h1 h2 h3 h4
    simp [processBridgeMessageAT, hT, h1, h2, h3, h4]

/-- Witness for C10: a message whose type is the unsupported string like
is rejected with ValueError and an empty transport trace. -/
theorem dispatch_on_content_type_witness :
    processBridgeMessageAT adapterNoWrite stubTransport "t"
      { source := "agora", target := "atproto",
        content := Json.obj [("type", Json.str "like")],
        protocol := none, meta := none } =
      ([], Except.error
        (PyExc.valueError "Unsupported message type: like")) := by
  have h := dispatch_on_content_type adapterNoWrite stubTransport "t"
    "agora" none none [("type", Json.str "like")] (Json.str "like") rfl
  simpa [jsonPyStr] using h.2.2.2.2 rfl rfl rfl rfl

end AgoraAT
